import Mathlib

/-!
Verification of the Device Connectivity & Telemetry Pipeline of the
sensor-monitor BLE application.

The development shallowly embeds the TypeScript sources:
  * `useSensorData.ts` (React hook): the aggregator / mode-controller state
    machine (`SensorState`, `updateRealReading`, the simulation interval tick,
    `setConnectionMode`, `startSimulation`, `toggleConnection`).
  * `BleService` (`BleServiceClass`): base64 payload decoding
    (`decodeBase64`), characteristic-data handling, the polling fallback
    (`startPollingData`), connect / disconnect / scan lifecycle.

JavaScript-specific semantics are modelled explicitly: `Array.prototype.slice(-n)`
as `jsSliceLast`, out-of-range indexing (`undefined`, which propagates to NaN
through arithmetic) as `Option`, 32-bit integer bitwise operations via their
two's-complement bit patterns, and `Uint8Array` construction, which throws a
RangeError on a non-integral length (the only `throw` reachable inside
`decodeBase64`'s `try` block).
-/

namespace SensorMonitor

/-! ## Data model of `useSensorData.ts` -/

/-- Structure `SensorReading` from `useSensorData.ts`; the `Date` timestamp is modelled
by its millisecond value (`getTime`). Numeric fields are rationals. -/
structure SensorReading where
  voltage : ℚ
  current : ℚ
  temperature : ℚ
  ph : ℚ
  timestamp : ℤ
deriving DecidableEq

/-- Structure `ChartDataPoint` from `useSensorData.ts`. -/
structure ChartDataPoint where
  timestamp : ℤ
  value : ℚ
deriving DecidableEq

/-- Type `ConnectionMode = "simulated" | "real"` from `useSensorData.ts`. -/
inductive ConnectionMode
  | simulated
  | real
deriving DecidableEq

/-- Structure `SensorState` from `useSensorData.ts`. -/
structure SensorState where
  isConnected : Bool
  currentReading : Option SensorReading
  voltageHistory : List ChartDataPoint
  currentHistory : List ChartDataPoint
  isSimulating : Bool
  connectionMode : ConnectionMode
  connectedDeviceName : Option String
deriving DecidableEq

/-- The initial state passed to `useState` in `useSensorData`. -/
def initialSensorState : SensorState :=
  { isConnected := false
    currentReading := none
    voltageHistory := []
    currentHistory := []
    isSimulating := false
    connectionMode := ConnectionMode.simulated
    connectedDeviceName := none }

def MAX_HISTORY_POINTS : Nat := 60

/-- JavaScript `arr.slice(-n)` for `n > 0`: the last `min n arr.length`
elements of `arr`, in order. -/
def jsSliceLast {α : Type} (n : Nat) (l : List α) : List α :=
  l.drop (l.length - n)

/-- Function `updateRealReading` from `useSensorData.ts`: appends one point per tracked
quantity to the histories, keeps the last `MAX_HISTORY_POINTS` via
`slice(-MAX_HISTORY_POINTS)`, and updates the current-reading snapshot. -/
def updateRealReading (reading : SensorReading) (prev : SensorState) : SensorState :=
  let timestamp := reading.timestamp
  { prev with
    currentReading := some reading
    voltageHistory :=
      jsSliceLast MAX_HISTORY_POINTS
        (prev.voltageHistory ++ [{ timestamp := timestamp, value := reading.voltage }])
    currentHistory :=
      jsSliceLast MAX_HISTORY_POINTS
        (prev.currentHistory ++ [{ timestamp := timestamp, value := reading.current }]) }

/-- The body of the simulation `setInterval` callback in `useSensorData`'s
effect, applied to the reading produced by `generateRandomReading` (the
random generation is nondeterministic, so the produced reading is a
parameter). Its history/snapshot update is textually identical to
`updateRealReading`. -/
def simulationTick (reading : SensorReading) (prev : SensorState) : SensorState :=
  let timestamp := reading.timestamp
  { prev with
    currentReading := some reading
    voltageHistory :=
      jsSliceLast MAX_HISTORY_POINTS
        (prev.voltageHistory ++ [{ timestamp := timestamp, value := reading.voltage }])
    currentHistory :=
      jsSliceLast MAX_HISTORY_POINTS
        (prev.currentHistory ++ [{ timestamp := timestamp, value := reading.current }]) }

/-- One `record(Reading)` call: either `updateRealReading` (Live mode) or one
simulation interval tick (Simulated mode). -/
inductive RecordCall
  | live (r : SensorReading)
  | sim (r : SensorReading)

def applyRecord : RecordCall → SensorState → SensorState
  | RecordCall.live r, st => updateRealReading r st
  | RecordCall.sim r, st => simulationTick r st

/-- The voltage history point a record call appends. -/
def vPoint : RecordCall → ChartDataPoint
  | RecordCall.live r => { timestamp := r.timestamp, value := r.voltage }
  | RecordCall.sim r => { timestamp := r.timestamp, value := r.voltage }

/-- The current history point a record call appends. -/
def cPoint : RecordCall → ChartDataPoint
  | RecordCall.live r => { timestamp := r.timestamp, value := r.current }
  | RecordCall.sim r => { timestamp := r.timestamp, value := r.current }

/-! ### Lemmas about `jsSliceLast` -/

lemma jsSliceLast_nil {α : Type} (n : Nat) : jsSliceLast n ([] : List α) = [] := by
  simp [jsSliceLast]

lemma length_jsSliceLast {α : Type} (n : Nat) (l : List α) :
    (jsSliceLast n l).length = min l.length n := by
  simp only [jsSliceLast, List.length_drop]
  omega

/-- Appending one element to an already-truncated list and truncating again is
the same as truncating the fully appended list: the key step for the bounded
history invariant. -/
lemma jsSliceLast_append_singleton {α : Type} (n : Nat) (l : List α) (a : α) :
    jsSliceLast n (jsSliceLast n l ++ [a]) = jsSliceLast n (l ++ [a]) := by
  rcases Nat.le_total l.length n with h | h
  · have hz : l.length - n = 0 := by omega
    simp [jsSliceLast, hz]
  · rcases Nat.eq_zero_or_pos n with hn | hn
    · subst hn
      simp [jsSliceLast, List.drop_eq_nil_iff]
    · have hlen : (jsSliceLast n l).length = n := by
        rw [length_jsSliceLast]; omega
      have h1 : jsSliceLast n (jsSliceLast n l ++ [a])
          = (jsSliceLast n l ++ [a]).drop 1 := by
        simp only [jsSliceLast, List.length_append, List.length_drop,
          List.length_cons, List.length_nil]
        congr 1
        omega
      have h2 : (jsSliceLast n l ++ [a]).drop 1 = l.drop (l.length - n + 1) ++ [a] := by
        rw [List.drop_append_of_le_length (by omega)]
        simp only [jsSliceLast, List.drop_drop]
      have h3 : jsSliceLast n (l ++ [a]) = l.drop (l.length + 1 - n) ++ [a] := by
        simp only [jsSliceLast, List.length_append, List.length_cons, List.length_nil]
        rw [List.drop_append_of_le_length (by omega)]
      rw [h1, h2, h3]
      congr 2
      omega

/-- Folding record calls over a state whose histories are already truncations
keeps histories equal to the truncation of all points appended so far. -/
lemma foldRecord_histories (calls : List RecordCall) :
    ∀ (st : SensorState) (pv pc : List ChartDataPoint),
      st.voltageHistory = jsSliceLast MAX_HISTORY_POINTS pv →
      st.currentHistory = jsSliceLast MAX_HISTORY_POINTS pc →
      (calls.foldl (fun s c => applyRecord c s) st).voltageHistory
          = jsSliceLast MAX_HISTORY_POINTS (pv ++ calls.map vPoint) ∧
      (calls.foldl (fun s c => applyRecord c s) st).currentHistory
          = jsSliceLast MAX_HISTORY_POINTS (pc ++ calls.map cPoint) := by
  induction calls with
  | nil => intro st pv pc hv hc; simpa using ⟨hv, hc⟩
  | cons c rest ih =>
    intro st pv pc hv hc
    have hstep_v : (applyRecord c st).voltageHistory
        = jsSliceLast MAX_HISTORY_POINTS (pv ++ [vPoint c]) := by
      cases c <;>
        simp only [applyRecord, updateRealReading, simulationTick, vPoint] <;>
        rw [hv, jsSliceLast_append_singleton]
    have hstep_c : (applyRecord c st).currentHistory
        = jsSliceLast MAX_HISTORY_POINTS (pc ++ [cPoint c]) := by
      cases c <;>
        simp only [applyRecord, updateRealReading, simulationTick, cPoint] <;>
        rw [hc, jsSliceLast_append_singleton]
    have := ih (applyRecord c st) (pv ++ [vPoint c]) (pc ++ [cPoint c]) hstep_v hstep_c
    simpa [List.append_assoc] using this

/-- Claim C1: starting from the hook's initial state, after any sequence of
`record(Reading)` calls (live `updateRealReading` or simulation ticks, in any
interleaving) each tracked history equals the `slice(-60)` suffix of all
points appended so far — i.e. exactly the (at most) 60 most recently appended
points in arrival order — and its length is `min`-bounded, hence never exceeds
60. Applying this to every prefix of a call sequence gives the bound at all
times, including immediately after any insertion. -/
theorem C1_seriesBuffer_bounded (calls : List RecordCall) :
    (calls.foldl (fun s c => applyRecord c s) initialSensorState).voltageHistory
        = jsSliceLast MAX_HISTORY_POINTS (calls.map vPoint) ∧
    (calls.foldl (fun s c => applyRecord c s) initialSensorState).currentHistory
        = jsSliceLast MAX_HISTORY_POINTS (calls.map cPoint) ∧
    (calls.foldl (fun s c => applyRecord c s) initialSensorState).voltageHistory.length
        = min calls.length MAX_HISTORY_POINTS ∧
    (calls.foldl (fun s c => applyRecord c s) initialSensorState).currentHistory.length
        = min calls.length MAX_HISTORY_POINTS ∧
    (calls.foldl (fun s c => applyRecord c s) initialSensorState).voltageHistory.length
        ≤ MAX_HISTORY_POINTS ∧
    (calls.foldl (fun s c => applyRecord c s) initialSensorState).currentHistory.length
        ≤ MAX_HISTORY_POINTS := by
  obtain ⟨hv, hc⟩ := foldRecord_histories calls initialSensorState [] [] rfl rfl
  simp only [List.nil_append] at hv hc
  refine ⟨hv, hc, ?_, ?_, ?_, ?_⟩ <;>
    simp [hv, hc, length_jsSliceLast, Nat.min_le_right]

/-! ## Payload decoding: `BleServiceClass.decodeBase64` and
`handleCharacteristicData` -/

def b64Chars : List Char :=
  "ABCDEFGHIJKLMNOPQRSTUVWXYZabcdefghijklmnopqrstuvwxyz0123456789+/".toList

/-- JS `chars.indexOf(base64[i])`: the position in the base64 alphabet, or
`-1` when the character does not occur (this includes `=`). -/
def b64Index (c : Char) : Int :=
  match b64Chars.findIdx? (fun x => x = c) with
  | some i => (i : Int)
  | none => -1

/-- The two's-complement 32-bit pattern of a JS int32 value. -/
def pat32 (x : Int) : Nat := (Int.emod x 4294967296).toNat

/-- Value `(encoded1 << 2) | (encoded2 >> 4)` stored into a `Uint8Array` slot:
`>>` is the arithmetic shift (floor division), `|` operates on the 32-bit
patterns, and the store keeps the low byte (`ToUint8`). -/
def jsByte1 (e1 e2 : Int) : Nat :=
  Nat.lor (pat32 (e1 * 4)) (pat32 (Int.ediv e2 16)) % 256

/-- Value `((encoded2 & 15) << 4) | (encoded3 >> 2)` stored into a `Uint8Array` slot. -/
def jsByte2 (e2 e3 : Int) : Nat :=
  Nat.lor (Nat.land (pat32 e2) 15 * 16) (pat32 (Int.ediv e3 4)) % 256

/-- Value `((encoded3 & 3) << 6) | encoded4` stored into a `Uint8Array` slot. -/
def jsByte3 (e3 e4 : Int) : Nat :=
  Nat.lor (Nat.land (pat32 e3) 3 * 64) (pat32 e4) % 256

/-- The sequence of `bytes[p++] = …` writes performed by `decodeBase64`'s
group loop, in write order. The first byte of a group is always written; the
second (resp. third) only when `encoded3 !== -1 && base64[i+2] !== "="`
(resp. `encoded4 !== -1 && base64[i+3] !== "="`). -/
def decodeGroups : List Char → List Nat
  | c1 :: c2 :: c3 :: c4 :: rest =>
      jsByte1 (b64Index c1) (b64Index c2) ::
        ((if b64Index c3 ≠ -1 ∧ c3 ≠ '=' then
            [jsByte2 (b64Index c2) (b64Index c3)] else []) ++
          (if b64Index c4 ≠ -1 ∧ c4 ≠ '=' then
            [jsByte3 (b64Index c3) (b64Index c4)] else []) ++
          decodeGroups rest)
  | _ => []

/-- JS string indexing `s[i]`: `undefined` (here `none`) out of range. -/
def jsCharAt (s : List Char) (i : Int) : Option Char :=
  if i < 0 then none else s.get? i.toNat

/-- The `bufferLength` computation of `decodeBase64`
(`base64.length * 0.75`, minus one per trailing `=` check); exact whenever
the input length is a multiple of 4. -/
def bufLen (s : List Char) : Nat :=
  (s.length * 3 / 4
      - (if jsCharAt s ((s.length : Int) - 1) = some '=' then 1 else 0))
    - (if jsCharAt s ((s.length : Int) - 2) = some '=' then 1 else 0)

/-- Function `BleServiceClass.decodeBase64`. When the input length is not a multiple
of 4, `base64.length * 0.75` is fractional, `new Uint8Array(bufferLength)`
throws a RangeError, and the `catch` returns the fallback `[300, 100, 370,
70]`. Otherwise nothing in the `try` block can throw: the `Uint8Array` is
zero-initialised, out-of-bounds `bytes[p++] = …` writes are silently
dropped (hence the padding with zeros and the truncation to `bufLen`), and
`Array.from` returns the array's contents. -/
def decodeBase64 (s : List Char) : List Nat :=
  if s.length % 4 = 0 then
    (decodeGroups s ++ List.replicate (bufLen s) 0).take (bufLen s)
  else
    [300, 100, 370, 70]

/-- The reading constructed from the decoded byte array by
`handleCharacteristicData` (and by the polling loop when at least 4 bytes
are present): `data[i]` past the end of the array is `undefined` and
`undefined / n` is NaN, modelled as `none`; the timestamp is `new Date()`
at acquisition time, passed in as `now`. -/
structure WireReading where
  voltage : Option ℚ
  current : Option ℚ
  temperature : Option ℚ
  ph : Option ℚ
  timestamp : ℤ
deriving DecidableEq

def mkWireReading (data : List Nat) (now : ℤ) : WireReading :=
  { voltage := (data.get? 0).map (fun b => (b : ℚ) / 100)
    current := (data.get? 1).map (fun b => (b : ℚ) / 100)
    temperature := (data.get? 2).map (fun b => (b : ℚ) / 10)
    ph := (data.get? 3).map (fun b => (b : ℚ) / 10)
    timestamp := now }

/-- Every byte written by the group loop is a `% 256` value. -/
lemma decodeGroups_mem_lt : ∀ (s : List Char) (x : Nat), x ∈ decodeGroups s → x < 256
  | c1 :: c2 :: c3 :: c4 :: rest, x, hx => by
      rw [decodeGroups] at hx
      rcases List.mem_cons.mp hx with h | h
      · subst h; exact Nat.mod_lt _ (by norm_num)
      · rcases List.mem_append.mp h with h1 | h1
        · rcases List.mem_append.mp h1 with h2 | h2
          · split at h2
            · rcases List.mem_singleton.mp h2 with h3
              subst h3; exact Nat.mod_lt _ (by norm_num)
            · simp at h2
          · split at h2
            · rcases List.mem_singleton.mp h2 with h3
              subst h3; exact Nat.mod_lt _ (by norm_num)
            · simp at h2
        · exact decodeGroups_mem_lt rest x h1
  | [], x, hx => by simp [decodeGroups] at hx
  | [c1], x, hx => by simp [decodeGroups] at hx
  | [c1, c2], x, hx => by simp [decodeGroups] at hx
  | [c1, c2, c3], x, hx => by simp [decodeGroups] at hx

/-- Claim C2 (amended): the decoder returns the fallback bytes
`[300, 100, 370, 70]` exactly when the encoded string's length is not a
multiple of 4 (the only case in which the `try` block throws), and those
fallback bytes produce the reading {voltage=3.00, current=1.00,
temperature=37.0, ph=7.0}. A payload that decodes without throwing to fewer
than 4 bytes does not produce the fallback. -/
theorem C2_fallback_iff_bad_length :
    (∀ s : List Char, decodeBase64 s = [300, 100, 370, 70] ↔ s.length % 4 ≠ 0) ∧
    (∀ now : ℤ, mkWireReading [300, 100, 370, 70] now =
      { voltage := some 3, current := some 1, temperature := some 37,
        ph := some 7, timestamp := now }) := by
  constructor
  · intro s
    constructor
    · intro h hmod
      have h300 : (300 : Nat) ∈ decodeBase64 s := by rw [h]; simp
      rw [decodeBase64, if_pos hmod] at h300
      have hmem := List.take_subset _ _ h300
      rcases List.mem_append.mp hmem with hg | hr
      · exact absurd (decodeGroups_mem_lt s 300 hg) (by norm_num)
      · exact absurd (List.eq_of_mem_replicate hr) (by norm_num)
    · intro h
      rw [decodeBase64, if_neg h]
  · intro now
    simp only [mkWireReading, List.get?, Option.map_some, WireReading.mk.injEq]
    norm_num

/-- Claim C2 witness: the one-character string "Q" has length 1, not a
multiple of 4, and indeed decodes to the fallback bytes. -/
theorem C2_fallback_iff_bad_length_witness :
    decodeBase64 ['Q'] = [300, 100, 370, 70] :=
  (C2_fallback_iff_bad_length.1 ['Q']).mpr (by decide)

/-- Claim C2 counterexample: the syntactically valid base64 payload "QQ=="
resolves to the single byte 65 — fewer than 4 decoded bytes — yet the decode
step does not yield the fallback bytes, and the reading built from it
(voltage 0.65, remaining fields NaN) is not the fallback reading
{3.00, 1.00, 37.0, 7.0}. -/
theorem C2_counterexample_short_valid_payload :
    decodeBase64 ['Q', 'Q', '=', '='] = [65] ∧
    (decodeBase64 ['Q', 'Q', '=', '=']).length < 4 ∧
    decodeBase64 ['Q', 'Q', '=', '='] ≠ [300, 100, 370, 70] ∧
    mkWireReading (decodeBase64 ['Q', 'Q', '=', '=']) 0 ≠
      mkWireReading [300, 100, 370, 70] 0 := by
  have hd : decodeBase64 ['Q', 'Q', '=', '='] = [65] := by decide
  refine ⟨hd, by rw [hd]; decide, by rw [hd]; decide, ?_⟩
  rw [hd]
  intro hEq
  have hcur := congrArg WireReading.current hEq
  simp [mkWireReading] at hcur

/-- Claim C4: from any resolved byte array with at least four bytes
b0, b1, b2, b3, the constructed reading has voltage = b0/100,
current = b1/100, temperature = b2/10, ph = b3/10, timestamped at the
acquisition instant; in particular the byte list [250, 120, 365, 72] yields
{voltage = 2.50, current = 1.20, temperature = 36.5, ph = 7.2}. -/
theorem C4_wire_format (b0 b1 b2 b3 : Nat) (rest : List Nat) (now : ℤ) :
    mkWireReading (b0 :: b1 :: b2 :: b3 :: rest) now =
      { voltage := some ((b0 : ℚ) / 100), current := some ((b1 : ℚ) / 100),
        temperature := some ((b2 : ℚ) / 10), ph := some ((b3 : ℚ) / 10),
        timestamp := now } ∧
    mkWireReading [250, 120, 365, 72] now =
      { voltage := some ((5 : ℚ) / 2), current := some ((6 : ℚ) / 5),
        temperature := some ((73 : ℚ) / 2), ph := some ((36 : ℚ) / 5),
        timestamp := now } := by
  constructor
  · rfl
  · simp only [mkWireReading, List.get?, Option.map_some, WireReading.mk.injEq]
    norm_num

/-! ## Connection lifecycle (`BleServiceClass`) -/

/-- The `device` object held in `BleServiceClass.device` (null ↔ `none`). -/
structure DeviceObj where
  id : String
  name : Option String
deriving DecidableEq

/-- The mutable fields of `BleServiceClass` relevant to the connection and
scan lifecycle; the manager is assumed initialised and non-null. -/
structure BleState where
  device : Option DeviceObj
  isScanning : Bool
deriving DecidableEq

/-- The observable callback invocations (`BleServiceCallbacks`) as events. -/
inductive BleEvent
  | deviceFound (id : String) (name : String) (rssi : Int) (isConnectable : Bool)
  | connectionStateChange (connected : Bool) (deviceName : Option String)
  | dataReceived (r : WireReading)
  | error (msg : String)
deriving DecidableEq

/-- Function `stopScan` of `BleServiceClass`. -/
def stopScan (st : BleState) : BleState :=
  if st.isScanning then { st with isScanning := false } else st

/-- Outcomes of the awaited transport operations inside `connectToDevice`:
whether `manager.connectToDevice` resolves (and the `name` on the device
object it returns), whether `discoverAllServicesAndCharacteristics`
resolves, and the `error.message` used if either rejects.
(`startDataNotifications` catches its own failure internally — falling back
to polling — so it never rejects.) -/
structure ConnectEnv where
  transportOk : Bool
  deviceName : Option String
  enumOk : Bool
  errMsg : String

/-- Function `connectToDevice` of `BleServiceClass`: stops any scan,
establishes the transport connection (assigning `this.device`), registers
the unsolicited-disconnect observer, enumerates services and
characteristics, and only then emits `onConnectionStateChange(true, name)`
and starts acquisition. Any rejection is caught: `onError` is emitted and
`false` returned — the catch does not clear `this.device`. Result:
(new state, events emitted, return value). -/
def connectToDevice (st : BleState) (deviceId : String) (env : ConnectEnv) :
    BleState × List BleEvent × Bool :=
  let st0 := stopScan st
  if env.transportOk then
    let st1 := { st0 with device := some { id := deviceId, name := env.deviceName } }
    if env.enumOk then
      (st1, [BleEvent.connectionStateChange true env.deviceName], true)
    else
      (st1, [BleEvent.error ("Connection failed: " ++ env.errMsg)], false)
  else
    (st0, [BleEvent.error ("Connection failed: " ++ env.errMsg)], false)

/-- Function `isConnected` of `BleServiceClass`: `this.device !== null`. -/
def isConnected (st : BleState) : Bool := st.device.isSome

/-- The `onDisconnected` observer registered in `connectToDevice`: on an
unsolicited remote disconnect it clears `this.device` and emits
`onConnectionStateChange(false)` — and nothing else. -/
def onDeviceDisconnected (st : BleState) : BleState × List BleEvent :=
  ({ st with device := none }, [BleEvent.connectionStateChange false none])

/-- Function `disconnect` of `BleServiceClass`: when a device is held it
awaits `cancelConnection` — a rejection (`cancelThrows`) is caught and only
logged, never surfaced — and clears `this.device`; in every case it then
emits `onConnectionStateChange(false)`. -/
def disconnect (st : BleState) (cancelThrows : Bool) : BleState × List BleEvent :=
  match st.device with
  | some _ => ({ st with device := none }, [BleEvent.connectionStateChange false none])
  | none => (st, [BleEvent.connectionStateChange false none])

/-- Predicate singling out error events. -/
def isErrorEvent : BleEvent → Bool
  | BleEvent.error _ => true
  | _ => false

/-- Predicate singling out `onConnectionStateChange(false, …)` events. -/
def isDisconnectEvent : BleEvent → Bool
  | BleEvent.connectionStateChange false _ => true
  | _ => false

/-- Predicate singling out `onConnectionStateChange` events of either
polarity. -/
def isConnStateEvent : BleEvent → Bool
  | BleEvent.connectionStateChange _ _ => true
  | _ => false

/-- Claim C5 (amended): when the transport connection succeeds but service
enumeration fails, `connectToDevice` surfaces exactly one error event, emits
no connection-state event and returns `false` — the attempt is reported as a
failure — but the catch does not clear `this.device`, so the device handle
stays set and `isConnected()` afterwards reports true. -/
theorem C5_enum_failure_reported_but_device_kept
    (st : BleState) (deviceId : String) (env : ConnectEnv)
    (ht : env.transportOk = true) (he : env.enumOk = false) :
    (connectToDevice st deviceId env).2.2 = false ∧
    (connectToDevice st deviceId env).2.1
        = [BleEvent.error ("Connection failed: " ++ env.errMsg)] ∧
    (connectToDevice st deviceId env).2.1.countP isConnStateEvent = 0 ∧
    (connectToDevice st deviceId env).1.device
        = some { id := deviceId, name := env.deviceName } ∧
    isConnected (connectToDevice st deviceId env).1 = true := by
  simp [connectToDevice, ht, he, isConnected, List.countP_cons, List.countP_nil,
    isConnStateEvent]

/-- Claim C5 witness: the amended statement instantiated at a concrete
failed-enumeration connect attempt. -/
theorem C5_enum_failure_reported_but_device_kept_witness :
    (connectToDevice { device := none, isScanning := false } "dev1"
        { transportOk := true, deviceName := some "Sensor", enumOk := false,
          errMsg := "enumeration failed" }).2.2 = false ∧
    isConnected (connectToDevice { device := none, isScanning := false } "dev1"
        { transportOk := true, deviceName := some "Sensor", enumOk := false,
          errMsg := "enumeration failed" }).1 = true := by
  have h := C5_enum_failure_reported_but_device_kept
    { device := none, isScanning := false } "dev1"
    { transportOk := true, deviceName := some "Sensor", enumOk := false,
      errMsg := "enumeration failed" } rfl rfl
  exact ⟨h.1, h.2.2.2.2⟩

/-- Claim C5 counterexample: at this concrete input the transport succeeds,
enumeration fails, and yet `isConnected()` reports true afterwards — the
service does end up in a connected state, refuting that part of the claim. -/
theorem C5_counterexample_connected_after_enum_failure :
    isConnected (connectToDevice { device := none, isScanning := false } "dev1"
      { transportOk := true, deviceName := some "Sensor", enumOk := false,
        errMsg := "enumeration failed" }).1 = true := rfl

/-- Claim C6: `disconnect()` emits exactly the single
`onConnectionStateChange(false)` event and never an error, whether or not
`cancelConnection` rejects (the rejection is swallowed); afterwards the
device handle is clear; when no connection is active the state is unchanged
(a state-level no-op); and the operation is idempotent — a second call
leaves the same state and again emits only the disconnect event. -/
theorem C6_disconnect_idempotent (st : BleState) (b b2 : Bool) :
    (disconnect st b).2 = [BleEvent.connectionStateChange false none] ∧
    (disconnect st b).2.countP isErrorEvent = 0 ∧
    (disconnect st b).1.device = none ∧
    (st.device = none → (disconnect st b).1 = st) ∧
    disconnect (disconnect st b).1 b2
        = ((disconnect st b).1, [BleEvent.connectionStateChange false none]) := by
  obtain ⟨dev, scanning⟩ := st
  cases dev <;>
    simp [disconnect, List.countP_cons, List.countP_nil, isErrorEvent]

/-- Claim C6 witness: `disconnect` with no active connection leaves the
state unchanged and emits no error. -/
theorem C6_disconnect_idempotent_witness :
    (disconnect { device := none, isScanning := false } true).1
        = { device := none, isScanning := false } ∧
    (disconnect { device := none, isScanning := false } true).2.countP
        isErrorEvent = 0 := by
  have h := C6_disconnect_idempotent { device := none, isScanning := false } true false
  exact ⟨h.2.2.2.1 rfl, h.2.1⟩

/-- Claim C8: from any connected state, the unsolicited remote disconnect
observer clears the device — the Idle state — and emits exactly one
`onConnectionStateChange(false)` event and no error event. -/
theorem C8_remote_disconnect_single_event (st : BleState)
    (hc : isConnected st = true) :
    (onDeviceDisconnected st).1.device = none ∧
    (onDeviceDisconnected st).2 = [BleEvent.connectionStateChange false none] ∧
    (onDeviceDisconnected st).2.countP isDisconnectEvent = 1 ∧
    (onDeviceDisconnected st).2.countP isErrorEvent = 0 := by
  simp [onDeviceDisconnected, List.countP_cons, List.countP_nil,
    isDisconnectEvent, isErrorEvent]

/-- Claim C8 witness: the statement instantiated at a concrete connected
state. -/
theorem C8_remote_disconnect_single_event_witness :
    (onDeviceDisconnected
        { device := some { id := "d1", name := some "Sensor" },
          isScanning := false }).2
      = [BleEvent.connectionStateChange false none] :=
  (C8_remote_disconnect_single_event
    { device := some { id := "d1", name := some "Sensor" }, isScanning := false }
    rfl).2.1

/-! ## Discovery (`BleServiceClass.startScan` / `stopScan`) -/

/-- Transport inputs delivered to a running scan session: the scan callback
firing with a device or an error, an explicit `stopScan()` call, and the
`setTimeout(() => this.stopScan(), timeoutMs)` timer firing. The manager
stops invoking the callback once `stopDeviceScan` has run, so callback
inputs arriving when `isScanning` is false produce nothing. -/
inductive ScanInput
  | found (id : String) (name : Option String) (rssi : Option Int)
      (isConnectable : Option Bool)
  | scanError (msg : String)
  | explicitStop
  | timerFired

/-- One step of the scan session. Device branch of the callback: only
devices with a truthy (non-null, non-empty) name are reported;
`device.rssi || -100` maps a falsy rssi (0, null, undefined) to -100;
`device.isConnectable ?? true` defaults only null/undefined. Error branch:
`onError` then `stopScan`. The timer and an explicit stop call `stopScan`,
which is a no-op when not scanning. -/
def scanStep (st : BleState) (inp : ScanInput) : BleState × List BleEvent :=
  match inp with
  | ScanInput.found id name rssi isConnectable =>
      if st.isScanning then
        match name with
        | some n =>
            if n = "" then (st, [])
            else
              (st, [BleEvent.deviceFound id n
                (match rssi with
                 | some r => if r = 0 then -100 else r
                 | none => -100)
                (isConnectable.getD true)])
        | none => (st, [])
      else (st, [])
  | ScanInput.scanError msg =>
      if st.isScanning then
        (stopScan st, [BleEvent.error ("Scan error: " ++ msg)])
      else (st, [])
  | ScanInput.explicitStop => (stopScan st, [])
  | ScanInput.timerFired => (stopScan st, [])

/-- Processing of a sequence of scan inputs, accumulating emitted events. -/
def runScan (st : BleState) : List ScanInput → BleState × List BleEvent
  | [] => (st, [])
  | inp :: rest =>
      ((runScan (scanStep st inp).1 rest).1,
        (scanStep st inp).2 ++ (runScan (scanStep st inp).1 rest).2)

lemma stopScan_isScanning (st : BleState) : (stopScan st).isScanning = false := by
  cases h : st.isScanning <;> simp [stopScan, h]

lemma scanStep_not_scanning (st : BleState) (inp : ScanInput)
    (h : st.isScanning = false) : scanStep st inp = (st, []) := by
  cases inp with
  | found id name rssi c => simp [scanStep, h]
  | scanError m => simp [scanStep, h]
  | explicitStop => simp [scanStep, stopScan, h]
  | timerFired => simp [scanStep, stopScan, h]

lemma runScan_not_scanning (st : BleState) (h : st.isScanning = false) :
    ∀ inputs, runScan st inputs = (st, []) := by
  intro inputs
  induction inputs with
  | nil => rfl
  | cons i rest ih => simp [runScan, scanStep_not_scanning st i h, ih]

lemma runScan_append (st : BleState) (xs ys : List ScanInput) :
    runScan st (xs ++ ys)
      = ((runScan (runScan st xs).1 ys).1,
         (runScan st xs).2 ++ (runScan (runScan st xs).1 ys).2) := by
  induction xs generalizing st with
  | nil => simp [runScan]
  | cons i rest ih => simp [runScan, ih, List.append_assoc]

/-- Claim C9: `startScan(timeoutMs)` arms `setTimeout(stopScan, timeoutMs)`,
so the `timerFired` input arrives no later than `timeoutMs` after start. In
the trace model: after any prefix of scan inputs followed by the timer
firing, the scanning state is cleared — even if no device was ever found —
and whatever inputs arrive afterwards, no further events (in particular no
device-found events) are emitted and the state stays stopped; the scanning
state is likewise cleared by an explicit `stopScan` and by a transport-level
scan error. -/
theorem C9_scan_timeout_clears (st : BleState) (pre post : List ScanInput)
    (m : String) :
    (runScan st (pre ++ [ScanInput.timerFired])).1.isScanning = false ∧
    runScan (runScan st (pre ++ [ScanInput.timerFired])).1 post
        = ((runScan st (pre ++ [ScanInput.timerFired])).1, []) ∧
    (runScan st (pre ++ [ScanInput.explicitStop])).1.isScanning = false ∧
    (runScan st (pre ++ [ScanInput.scanError m])).1.isScanning = false := by
  have htimer : (runScan st (pre ++ [ScanInput.timerFired])).1.isScanning = false := by
    rw [runScan_append]
    simp [runScan, scanStep, stopScan_isScanning]
  refine ⟨htimer, runScan_not_scanning _ htimer post, ?_, ?_⟩
  · rw [runScan_append]
    simp [runScan, scanStep, stopScan_isScanning]
  · rw [runScan_append]
    cases h : (runScan st pre).1.isScanning <;>
      simp [runScan, scanStep, h, stopScan_isScanning]

/-! ## Polling fallback (`BleServiceClass.startPollingData`) -/

/-- A characteristic as seen by one polling pass: its `isReadable` flag,
whether `char.read()` resolves (a rejection is caught per characteristic
and only logged), and the read characteristic's `value` (null ↔ `none`). -/
structure PollChar where
  isReadable : Bool
  readOk : Bool
  value : Option (List Char)

/-- A service as seen by one polling pass. -/
structure PollService where
  characteristics : List PollChar

/-- What a single `setInterval` tick of `startPollingData` does: silently
clear the interval (device gone), forward a reading and keep polling, or
call `onError` and `clearInterval` (abort). -/
inductive PollTickResult
  | stopped
  | reading (r : WireReading)
  | aborted (msg : String)
deriving DecidableEq

/-- The first characteristic of a pass that yields data: readable, read
resolves, value non-null, at least 4 decoded bytes. Its reading is the one
forwarded (`dataFound = true` then breaks both loops); unreadable
characteristics, failed reads, null values and short payloads are skipped
within the same pass. -/
def charSuccess (now : ℤ) (c : PollChar) : Option WireReading :=
  if c.isReadable then
    if c.readOk then
      match c.value with
      | some v =>
          if 4 ≤ (decodeBase64 v).length then
            some (mkWireReading (decodeBase64 v) now)
          else none
      | none => none
    else none
  else none

/-- The reading produced by one enumeration pass, if any. -/
def firstReading (services : List PollService) (now : ℤ) : Option WireReading :=
  services.findSome? (fun s => s.characteristics.findSome? (charSuccess now))

/-- One tick of `startPollingData`'s interval. `dev` is `none` when
`this.device` is null (clear the interval silently); `Except.error`
represents the enumeration rejecting (caught: `onError("Error reading from
device")` and `clearInterval`); on a pass with no successful read the
exhausted-source error is emitted and the interval cleared; otherwise the
first successful reading is forwarded and polling continues. -/
def pollTick (dev : Option (Except String (List PollService))) (now : ℤ) :
    PollTickResult :=
  match dev with
  | none => PollTickResult.stopped
  | some (Except.error _) => PollTickResult.aborted "Error reading from device"
  | some (Except.ok services) =>
      match firstReading services now with
      | some r => PollTickResult.reading r
      | none =>
          PollTickResult.aborted
            "Unable to read sensor data from device. Please check your sensor configuration."

/-- Claim C3 (amended): within one polling pass a failed or short read moves
on to the next characteristic, but there is no per-cycle retry: a pass that
completes with zero successful reads — including one that finds no readable
attribute at all — aborts polling with the exhausted-source error; a pass
whose enumeration throws aborts with the transport error message; a pass
with a successful read forwards that reading and keeps polling; a tick with
the device gone stops silently. -/
theorem C3_poll_pass_semantics (services : List PollService) (now : ℤ)
    (m : String) :
    (firstReading services now = none →
      pollTick (some (Except.ok services)) now
        = PollTickResult.aborted
            "Unable to read sensor data from device. Please check your sensor configuration.") ∧
    (∀ r, firstReading services now = some r →
      pollTick (some (Except.ok services)) now = PollTickResult.reading r) ∧
    pollTick (some (Except.error m)) now
        = PollTickResult.aborted "Error reading from device" ∧
    pollTick none now = PollTickResult.stopped := by
  refine ⟨fun h => ?_, fun r h => ?_, rfl, rfl⟩ <;> simp [pollTick, h]

/-- Claim C3 witness: the four behaviours at concrete inputs — a pass with
no characteristics aborts with the exhausted-source error; a pass whose
first characteristic fails to read but whose second succeeds forwards the
second's reading (skip within the pass); a throwing enumeration aborts; a
cleared device stops silently. -/
theorem C3_poll_pass_semantics_witness :
    pollTick (some (Except.ok [PollService.mk []])) 0
        = PollTickResult.aborted
            "Unable to read sensor data from device. Please check your sensor configuration." ∧
    pollTick (some (Except.ok [PollService.mk
        [PollChar.mk true false none,
         PollChar.mk true true (some ['A', 'A', 'A', 'A', 'A', 'A', 'A', 'A'])]])) 0
        = PollTickResult.reading
            (mkWireReading (decodeBase64 ['A', 'A', 'A', 'A', 'A', 'A', 'A', 'A']) 0) ∧
    pollTick (some (Except.error "transport")) 0
        = PollTickResult.aborted "Error reading from device" ∧
    pollTick none 0 = PollTickResult.stopped := by
  refine ⟨(C3_poll_pass_semantics [PollService.mk []] 0 "transport").1 rfl,
    (C3_poll_pass_semantics [PollService.mk
        [PollChar.mk true false none,
         PollChar.mk true true (some ['A', 'A', 'A', 'A', 'A', 'A', 'A', 'A'])]]
      0 "transport").2.1 _ rfl,
    (C3_poll_pass_semantics [] 0 "transport").2.2.1,
    (C3_poll_pass_semantics [] 0 "transport").2.2.2⟩

/-- Claim C3 counterexample: a pass that finds no readable attribute does
not retry on the next interval — at this concrete input (one service whose
only characteristic is not readable) the tick emits the exhausted-source
error and clears the interval: polling is aborted. -/
theorem C3_counterexample_no_readable_aborts :
    pollTick (some (Except.ok [PollService.mk [PollChar.mk false true none]])) 0
      = PollTickResult.aborted
          "Unable to read sensor data from device. Please check your sensor configuration." := rfl

/-! ## Mode controller operations of `useSensorData.ts` -/

/-- Function `setConnectionMode` from `useSensorData.ts`. -/
def setConnectionMode (mode : ConnectionMode) (prev : SensorState) : SensorState :=
  { prev with
    connectionMode := mode
    isConnected := false
    isSimulating := false
    connectedDeviceName := none }

/-- JS `deviceName || "Simulated Device"`: `undefined` and the empty string
are falsy. -/
def jsNameOrDefault (deviceName : Option String) (dflt : String) : String :=
  match deviceName with
  | some s => if s = "" then dflt else s
  | none => dflt

/-- Function `startSimulation` from `useSensorData.ts`. -/
def startSimulation (deviceName : Option String) (prev : SensorState) : SensorState :=
  { prev with
    isConnected := true
    isSimulating := true
    connectedDeviceName := some (jsNameOrDefault deviceName "Simulated Device") }

/-- The `useEffect` in `useSensorData`: the synthetic generator's interval
is installed when `isSimulating` becomes true and cleared when it becomes
false, so it runs exactly when the current state's `isSimulating` holds. -/
def generatorRunning (st : SensorState) : Bool := st.isSimulating

/-- Function `toggleConnection` from `useSensorData.ts`. -/
def toggleConnection (prev : SensorState) : SensorState :=
  if prev.isConnected then
    { prev with
      isConnected := false
      isSimulating := false
      connectedDeviceName := none }
  else
    { prev with
      isConnected := true
      isSimulating := decide (prev.connectionMode = ConnectionMode.simulated)
      connectedDeviceName :=
        if prev.connectionMode = ConnectionMode.simulated then
          some "Simulated Device"
        else none }

/-- Claim C7: from any pipeline state, `setMode(Simulated)` followed by
`startSimulation("X")` yields a connected simulating state with device name
"X"; and when simulation is active, `setMode(Live)` (mode "real") leaves a
state that is neither connected nor simulating, with the synthetic
generator stopped and the connection-derived fields reset. -/
theorem C7_mode_switch (st : SensorState) :
    ((startSimulation (some "X")
        (setConnectionMode ConnectionMode.simulated st)).isConnected = true ∧
      (startSimulation (some "X")
        (setConnectionMode ConnectionMode.simulated st)).isSimulating = true ∧
      (startSimulation (some "X")
        (setConnectionMode ConnectionMode.simulated st)).connectedDeviceName
          = some "X") ∧
    (st.isSimulating = true →
      (setConnectionMode ConnectionMode.real st).isConnected = false ∧
      (setConnectionMode ConnectionMode.real st).isSimulating = false ∧
      generatorRunning (setConnectionMode ConnectionMode.real st) = false ∧
      (setConnectionMode ConnectionMode.real st).connectedDeviceName = none) := by
  refine ⟨⟨rfl, rfl, ?_⟩, fun _ => ⟨rfl, rfl, rfl, rfl⟩⟩
  simp [startSimulation, jsNameOrDefault]

/-- Claim C7 witness: tearing down an active simulation via `setMode(Live)`
at a concrete simulating state. -/
theorem C7_mode_switch_witness :
    (setConnectionMode ConnectionMode.real
        { initialSensorState with isSimulating := true }).isConnected = false ∧
    generatorRunning (setConnectionMode ConnectionMode.real
        { initialSensorState with isSimulating := true }) = false := by
  have h := (C7_mode_switch { initialSensorState with isSimulating := true }).2 rfl
  exact ⟨h.1, h.2.2.1⟩

/-- Claim C10 (implicit): from any state with `isConnected = false` and
`connectionMode = "real"`, `toggleConnection` — in the source a pure state
update that performs no transport operation (it never touches `BleService`)
— produces `isConnected = true`, `isSimulating = false` and
`connectedDeviceName = null`: the public interface reports connected with
no active device. -/
theorem C10_toggle_real_connects_without_device (st : SensorState)
    (hc : st.isConnected = false) (hm : st.connectionMode = ConnectionMode.real) :
    (toggleConnection st).isConnected = true ∧
    (toggleConnection st).isSimulating = false ∧
    (toggleConnection st).connectedDeviceName = none := by
  simp [toggleConnection, hc, hm]

/-- Claim C10 witness: the statement instantiated at the initial state
switched to Live mode. -/
theorem C10_toggle_real_connects_without_device_witness :
    (toggleConnection
        { initialSensorState with connectionMode := ConnectionMode.real }).isConnected
      = true :=
  (C10_toggle_real_connects_without_device
    { initialSensorState with connectionMode := ConnectionMode.real } rfl rfl).1

end SensorMonitor
